import Mathlib

/-!
Verification of the `imager` batch image-transformation pipeline.

The development shallowly embeds the two pipeline implementations of the
repository:

* `imager.py` — file-based CLI pipeline (`process_image`, `generate_output_filename`,
  `process_images`), modelled as a state transformer over an abstract filesystem;
* `image_processor.py` — in-memory pipeline (`resize_and_pad_image`,
  `generate_output_filename`, `add_background`, `process_images`), modelled at
  the level of image sizes and produced metadata.

Modelling conventions:
* Machine integers are `Int`/`Nat`; Python float ratios are modelled with exact
  rationals `ℚ`, and Python `int()` as truncation toward zero (`pyInt`).
* File writes are atomic: a `save`/`write` either installs the complete file
  content at a path or (on failure) leaves the filesystem unchanged.
* External collaborators (the `rembg` removal model, PIL decoding/encoding)
  may fail nondeterministically; their success or failure is supplied by a
  `StageOracle`.
* A raised, uncaught Python exception is the error component of the result.
-/

/-- Python exceptions / error conditions relevant to the pipeline.
`invalidPaddingGeometry` is the error NAME used by the specification; it is
included so that statements can compare the errors the code actually raises
against it. -/
inductive PyErr
  | fileNotFound
  | removeFailed
  | pilError
  | zeroDiv
  | nameError
  | invalidPaddingGeometry
  deriving DecidableEq

/-- Abstract image file content, recording which transformations produced it.
`resizedPadded d w h p` is the canvas written by `imager.py`'s
`resize_and_pad_image`: a `w`×`h` RGBA canvas (the `dimensions` argument)
holding a thumbnail of `d`, built with padding argument `p`. -/
inductive ImageData
  | orig
  | bgRemoved (d : ImageData)
  | cropped (d : ImageData)
  | resizedPadded (d : ImageData) (w h padding : Int)
  deriving DecidableEq

/-- A filesystem: a partial map from paths to file contents. -/
def FS := String → Option ImageData

/-- Atomic file write (`open(path,'wb').write`, `Image.save`, `shutil.copy`). -/
def FS.write (fs : FS) (p : String) (d : ImageData) : FS :=
  fun q => if q = p then some d else fs q

/-- `os.remove`. -/
def FS.erase (fs : FS) (p : String) : FS :=
  fun q => if q = p then none else fs q

/-- `os.rename` / `shutil.move` of an existing file. -/
def FS.move (fs : FS) (src dst : String) : FS :=
  match fs src with
  | some d => (fs.erase src).write dst d
  | none => fs

/-- Success/failure of the external stages (the `rembg` model call, PIL
decoding inside `autocrop_image`, PIL work inside `resize_and_pad_image`).
These calls are black boxes that may raise; the oracle fixes their outcome. -/
structure StageOracle where
  removeOk : Bool
  cropOk : Bool
  resizeOk : Bool

/-- Python `int()` applied to a rational: truncation toward zero. -/
def pyInt (q : ℚ) : ℤ := q.num.tdiv q.den

/-- `imager.py::process_image` (lines 25-78), embedded as a filesystem
transformer.  Returns the final filesystem together with the uncaught
exception, if one was raised.  Mirrors the source statement by statement:
read the input bytes; if any processing (or a nonzero padding) is requested
write them — after optional background removal — to
`output_path + ".tmp.png"`; autocrop the temp file in place if `crop`;
then finalize through the `if resize / elif crop / elif need_processing /
else` chain.  The `elif crop` branch with `padding > 0` evaluates the
undefined names `crop_width`/`crop_height`, raising `NameError`. -/
def Imager.process_image (o : StageOracle) (fs : FS) (input_path output_path : String)
    (crop remove_bg : Bool) (resize : Option (Int × Int)) (padding : Int) :
    FS × Option PyErr :=
  let need_processing : Bool := crop || resize.isSome || remove_bg
  let temp_path : String := output_path ++ ".tmp.png"
  match fs input_path with
  | none => (fs, some PyErr.fileNotFound)
  | some image_data =>
    if need_processing || padding != 0 then
      if remove_bg && !o.removeOk then (fs, some PyErr.removeFailed)
      else
        let data1 := if remove_bg then ImageData.bgRemoved image_data else image_data
        let fs1 := fs.write temp_path data1
        if crop && !o.cropOk then (fs1, some PyErr.pilError)
        else
          let data2 := if crop then ImageData.cropped data1 else data1
          let fs2 := if crop then fs1.write temp_path data2 else fs1
          match resize with
          | some (rw, rh) =>
            let adjusted : Int × Int :=
              if padding != 0 then (rw - 2 * padding, rh - 2 * padding) else (rw, rh)
            if !o.resizeOk then (fs2, some PyErr.pilError)
            else
              ((fs2.write output_path
                  (ImageData.resizedPadded data2 adjusted.1 adjusted.2 padding)).erase temp_path,
                none)
          | none =>
            if crop then
              if padding > 0 then (fs2, some PyErr.nameError)
              else ((fs2.erase temp_path).write output_path data2, none)
            else if need_processing then
              ((fs2.erase temp_path).write output_path data2, none)
            else
              (fs2.write output_path image_data, none)
    else
      (fs.write output_path image_data, none)

/-- `os.path.basename`: the part of the path after the last slash. -/
def pyBasename (s : String) : String :=
  String.mk ((s.data.reverse.takeWhile (fun c => c != '/')).reverse)

/-- `os.path.splitext` on a basename: split at the last dot, unless every
character before that dot is a dot (so `.bashrc` keeps no extension). -/
def pySplitext (s : String) : String × String :=
  let rev := s.data.reverse
  let extRev := rev.takeWhile (fun c => c != '.')
  if extRev.length = rev.length then (s, "")
  else
    let rootRev := rev.drop (extRev.length + 1)
    if rootRev.all (fun c => c == '.') then (s, "")
    else (String.mk rootRev.reverse, String.mk ('.' :: extRev.reverse))

/-- `os.path.splitext(os.path.basename(path))[0]` — the base used by both
filename derivers. -/
def basePart (path : String) : String :=
  (pySplitext (pyBasename path)).1

/-- `imager.py::generate_output_filename` (lines 115-145).  The suffix is
accumulated exactly as in the source: `_b` for background removal, `_c` for
crop, and — only when `resize and crop` — the bare `{W}x{H}` token; the
suffix is reset to the empty string when no option is set, and `.png` is
always appended. -/
def Imager.generate_output_filename (input_path : String) (remove_bg crop : Bool)
    (resize : Option (Int × Int)) : String :=
  let base := basePart input_path
  let suffix := ""
  let suffix := if remove_bg then suffix ++ "_b" else suffix
  let suffix := if crop then suffix ++ "_c" else suffix
  let suffix :=
    match resize with
    | some (w, h) => if crop then suffix ++ toString w ++ "x" ++ toString h else suffix
    | none => suffix
  let suffix := if remove_bg || crop || resize.isSome then suffix else ""
  base ++ suffix ++ ".png"

/-- `image_processor.py::generate_output_filename` (lines 169-199).
Suffix tokens `_b`, `_c`, `_{W}x{H}`, `_bg` in that fixed order, `.png`
always appended. -/
def ImageProcessor.generate_output_filename (input_path : String) (remove_bg crop : Bool)
    (resize : Option (Int × Int)) (background : Bool) : String :=
  let base := basePart input_path
  let suffix := ""
  let suffix := if remove_bg then suffix ++ "_b" else suffix
  let suffix := if crop then suffix ++ "_c" else suffix
  let suffix :=
    match resize with
    | some (w, h) => suffix ++ "_" ++ toString w ++ "x" ++ toString h
    | none => suffix
  let suffix := if background then suffix ++ "_bg" else suffix
  base ++ suffix ++ ".png"

/-- Decidable equality for `Except`, needed to evaluate pipeline results. -/
instance {ε α : Type} [DecidableEq ε] [DecidableEq α] : DecidableEq (Except ε α)
  | Except.ok a, Except.ok b =>
    if h : a = b then isTrue (by rw [h]) else isFalse (by simp [h])
  | Except.ok _, Except.error _ => isFalse (by simp)
  | Except.error _, Except.ok _ => isFalse (by simp)
  | Except.error e, Except.error f =>
    if h : e = f then isTrue (by rw [h]) else isFalse (by simp [h])

/-- The new-size computation inlined in
`image_processor.py::resize_and_pad_image` (lines 139-148): float ratios
(modelled as exact rationals), strict `>` comparison, `int()` truncation.
A division raises `ZeroDivisionError` exactly when its divisor is zero.
Each rational is held as a single exact fraction built with `Rat.divInt`:
`img_ratio = sw/sh`, `target_ratio = cw/ch`,
`new_height * img_ratio = ch * (sw/sh) = (ch*sw)/sh` and
`new_width / img_ratio = cw / (sw/sh) = (cw*sh)/sw`. -/
def ImageProcessor.fit_new_size (sw sh : ℕ) (cw ch : ℤ) : Except PyErr (ℤ × ℤ) :=
  if sh = 0 then Except.error PyErr.zeroDiv
  else if ch = 0 then Except.error PyErr.zeroDiv
  else
    let img_ratio : ℚ := Rat.divInt (sw : ℤ) (sh : ℤ)
    let target_ratio : ℚ := Rat.divInt cw ch
    if target_ratio > img_ratio then
      -- new_height = content_height; new_width = int(new_height * img_ratio)
      Except.ok (pyInt (Rat.divInt (ch * (sw : ℤ)) (sh : ℤ)), ch)
    else if sw = 0 then Except.error PyErr.zeroDiv
    else
      -- new_width = content_width; new_height = int(new_width / img_ratio)
      Except.ok (cw, pyInt (Rat.divInt (cw * (sh : ℤ)) (sw : ℤ)))

/-- `image_processor.py::resize_and_pad_image` (lines 123-166) at the level
of sizes: a `sw`×`sh` source image, target `dimensions`, padding.  Computes
`content = dimensions - 2*padding` component-wise, fits via
`ImageProcessor.fit_new_size`, then resizes and builds the output canvas of
exactly `dimensions`.  PIL's `Image.resize` raises
`ValueError("height and width must be > 0")` for any fitted dimension
below 1 (the code calls `image.resize` directly, without `thumbnail`'s
clamping to 1); `Image.new` rejects negative canvas sizes.
Returns the size of the produced image. -/
def ImageProcessor.resize_and_pad_image (sw sh : ℕ) (dimensions : Int × Int)
    (padding : Int) : Except PyErr (Int × Int) :=
  let tw := dimensions.1
  let th := dimensions.2
  let cw := tw - 2 * padding
  let ch := th - 2 * padding
  match ImageProcessor.fit_new_size sw sh cw ch with
  | Except.error e => Except.error e
  | Except.ok (nw, nh) =>
    if nw ≤ 0 ∨ nh ≤ 0 then Except.error PyErr.pilError
    else if tw < 0 ∨ th < 0 then Except.error PyErr.pilError
    else Except.ok (tw, th)

/-- Python `str.isalpha`: nonempty and all alphabetic. -/
def pyIsAlpha (s : String) : Bool :=
  !s.isEmpty && s.data.all Char.isAlpha

/-- Python `s.startswith("#")`: the first character is `#`. -/
def pyStartsWithHash (s : String) : Bool :=
  match s.data with
  | [] => false
  | c :: _ => c == '#'

/-- Outcome of `add_background`: which solid color (or supplied image) ended
up as the background layer, and whether the invalid-color warning was
printed. -/
structure BgOutcome where
  layer : String
  warned : Bool
  deriving DecidableEq

/-- A background spec as passed to `add_background`: a string, or a PIL
image object. -/
inductive Background
  | colorSpec (s : String)
  | image
  deriving DecidableEq

/-- `image_processor.py::add_background` (lines 9-44), parameterized by the
PIL color parser `validColor` (a spec string is constructible as a solid
color iff `validColor` holds).  A string spec takes the color branch only
when it starts with `#` or is purely alphabetic; an invalid color there is
caught and replaced by the default `#FFFFFF` with a printed warning; any
other value falls through to the final `else` which silently uses the
default color.  The alpha-compositing itself cannot raise, so the function
always returns `Except.ok`. -/
def ImageProcessor.add_background (validColor : String → Bool) (background : Background) :
    Except PyErr BgOutcome :=
  match background with
  | Background.colorSpec s =>
    if pyStartsWithHash s || pyIsAlpha s then
      if validColor s then Except.ok ⟨s, false⟩
      else Except.ok ⟨"#FFFFFF", true⟩
    else Except.ok ⟨"#FFFFFF", false⟩
  | Background.image => Except.ok ⟨"image", false⟩

/-- The per-file loop shared by `imager.py::process_images` (lines 177-185)
and `image_processor.py::process_images` (lines 233-244): run the per-file
body `step` on each listed file in order; there is no `try`/`except`, so the
first raised exception propagates and ends the loop.  Returns the final
filesystem, the files whose iteration completed (processed and archived),
and the propagated exception if any. -/
def process_images_loop (step : String → FS → FS × Option PyErr) :
    FS → List String → FS × List String × Option PyErr
  | fs, [] => (fs, [], none)
  | fs, f :: rest =>
    match step f fs with
    | (fs1, none) =>
      match process_images_loop step fs1 rest with
      | (fs2, done, e) => (fs2, f :: done, e)
    | (fs1, some e) => (fs1, [], some e)

/-- The body of one iteration of `imager.py::process_images` (lines 177-185):
derive the output name, run `process_image`, then `shutil.move` the input
into the `processed` archive directory. -/
def Imager.process_images_step (o : StageOracle) (crop remove_bg : Bool)
    (resize : Option (Int × Int)) (padding : Int) (input_dir output_dir : String)
    (f : String) (fs : FS) : FS × Option PyErr :=
  let input_path := input_dir ++ "/" ++ f
  let output_path := output_dir ++ "/" ++ Imager.generate_output_filename f remove_bg crop resize
  match Imager.process_image o fs input_path output_path crop remove_bg resize padding with
  | (fs1, some e) => (fs1, some e)
  | (fs1, none) => (fs1.move input_path (input_dir ++ "/processed/" ++ f), none)

/-- A per-file step whose processing reaches the resize-and-pad stage of
`image_processor.py` on an `sw`×`sh` source (pixel content abstracted away):
an error raised by the stage propagates out of the step. -/
def ImageProcessor.resize_step (sw sh : ℕ) (dims : Int × Int) (padding : Int)
    (_f : String) (fs : FS) : FS × Option PyErr :=
  match ImageProcessor.resize_and_pad_image sw sh dims padding with
  | Except.error e => (fs, some e)
  | Except.ok _ => (fs, none)

/-- Height-bound fit formula, from the spec's words:
`new_height = content_height`, `new_width = int(new_height * sourceRatio)`. -/
def heightBoundFit (sw sh : ℕ) (ch : ℤ) : ℤ × ℤ :=
  (pyInt ((ch : ℚ) * ((sw : ℚ) / (sh : ℚ))), ch)

/-- Width-bound fit formula, from the spec's words:
`new_width = content_width`, `new_height = int(new_width / sourceRatio)`. -/
def widthBoundFit (sw sh : ℕ) (cw : ℤ) : ℤ × ℤ :=
  (cw, pyInt ((cw : ℚ) / ((sw : ℚ) / (sh : ℚ))))

/-- An oracle under which all external stages succeed. -/
def oracleAllOk : StageOracle := ⟨true, true, true⟩

/-- An oracle under which the PIL work inside `autocrop_image` raises
(e.g. the bytes at the temp path are not a decodable image). -/
def oracleCropFails : StageOracle := ⟨true, false, true⟩

/-- A filesystem holding a single input image. -/
def fsOne : FS := fun p => if p = "in.png" then some ImageData.orig else none

/-- A filesystem holding two input images in `./input`. -/
def fsTwo : FS := fun p =>
  if p = "./input/a.png" then some ImageData.orig
  else if p = "./input/b.png" then some ImageData.orig
  else none

/-- The empty filesystem. -/
def emptyFS : FS := fun _ => none

/-- A concrete batch body: crop-only processing over `./input`/`./output`
with an oracle under which autocrop raises. -/
def stepCropBatch : String → FS → FS × Option PyErr :=
  Imager.process_images_step oracleCropFails true false none 0 "./input" "./output"

/-- The filesystem after the failing first iteration of `stepCropBatch`. -/
def fsAfterFail : FS := (stepCropBatch "a.png" fsTwo).1

-- Sanity examples (concrete evaluations of the embedding).
example : pyBasename "./input/a.png" = "a.png" := by decide
example : pySplitext "a.png" = ("a", ".png") := by decide
example : pySplitext ".bashrc" = (".bashrc", "") := by decide
example : Imager.generate_output_filename "photo.jpg" true true none = "photo_b_c.png" := by decide
example : Imager.generate_output_filename "photo.jpg" false false (some (200, 200)) = "photo.png" := by
  decide
example : ImageProcessor.generate_output_filename "photo.jpg" false false (some (200, 200)) false
    = "photo_200x200.png" := by decide
example : ImageProcessor.resize_and_pad_image 300 200 (200, 200) 10 = Except.ok (200, 200) := by
  decide
example : ImageProcessor.resize_and_pad_image 100 100 (20, 20) 10 = Except.error PyErr.zeroDiv := by
  decide
example : ImageProcessor.fit_new_size 3 4 3 2 = Except.ok (1, 2) := by decide

/-! ## Helper lemmas -/

/-- A path never equals itself with the `.tmp.png` suffix appended. -/
theorem ne_append_tmp (s : String) : ¬(s = s ++ ".tmp.png") := by
  intro h
  have h2 := congrArg String.length h
  rw [String.length_append] at h2
  have h3 : (".tmp.png" : String).length = 8 := rfl
  rw [h3] at h2
  omega

/-- Symmetric version of `ne_append_tmp`. -/
theorem append_tmp_ne (s : String) : ¬(s ++ ".tmp.png" = s) := by
  intro h
  exact ne_append_tmp s h.symm

/-- Reassociation step used to normalize suffix-token concatenations. -/
theorem append_pull_underscore (t X : String) : t ++ ("_" ++ X) = t ++ "_" ++ X :=
  (String.append_assoc t "_" X).symm

/-- `pyInt` on an integer-valued rational is that integer. -/
theorem pyInt_intCast (n : ℤ) : pyInt ((n : ℚ)) = n := by
  simp [pyInt, Rat.num_intCast, Rat.den_intCast]

/-- Truncation of a non-negative rational is non-negative. -/
theorem pyInt_nonneg {q : ℚ} (h : 0 ≤ q) : 0 ≤ pyInt q :=
  Int.tdiv_nonneg (Rat.num_nonneg.mpr h) (Int.natCast_nonneg _)

/-- A fraction of non-negative integers is non-negative. -/
theorem divInt_nonneg_of_nonneg (a b : ℤ) (ha : 0 ≤ a) (hb : 0 ≤ b) :
    0 ≤ Rat.divInt a b := by
  rw [Rat.divInt_eq_div]
  exact div_nonneg (by exact_mod_cast ha) (by exact_mod_cast hb)

/-- Truncation of a rational that is at least one is at least one. -/
theorem one_le_pyInt {q : ℚ} (h : 1 ≤ q) : 1 ≤ pyInt q := by
  have hden : (0 : ℤ) < (q.den : ℤ) := by exact_mod_cast q.den_pos
  have hnum : (q.den : ℤ) ≤ q.num := by
    rw [Rat.le_def] at h
    simpa using h
  unfold pyInt
  rw [Int.tdiv_eq_ediv (le_trans hden.le hnum) hden.le]
  rw [Int.le_ediv_iff_mul_le hden]
  simpa using hnum

/-! ## C6 — output-name suffix tokens -/

/-- C6 (amended): `image_processor.py`'s deriver appends the suffix tokens
`_b`, `_c`, `_{W}x{H}`, `_bg` in that fixed order, each present exactly when
the corresponding stage was requested, then `.png` unconditionally.
`imager.py`'s deriver instead appends the resize token only when crop is also
set, and without the leading underscore; it has no `_bg` token.  In both,
flags `{removeBackground, crop}` yield `name_b_c.png`. -/
theorem generate_output_filename_tokens (path : String) (rb c bg : Bool)
    (rz : Option (Int × Int)) :
    ImageProcessor.generate_output_filename path rb c rz bg
      = basePart path ++ (if rb then "_b" else "") ++ (if c then "_c" else "")
        ++ (match rz with
            | some (w, h) => "_" ++ toString w ++ "x" ++ toString h
            | none => "")
        ++ (if bg then "_bg" else "") ++ ".png"
  ∧ Imager.generate_output_filename path rb c rz
      = basePart path ++ (if rb then "_b" else "") ++ (if c then "_c" else "")
        ++ (match rz with
            | some (w, h) => if c then toString w ++ "x" ++ toString h else ""
            | none => "")
        ++ ".png"
  ∧ ImageProcessor.generate_output_filename path true true none false
      = basePart path ++ "_b_c.png"
  ∧ Imager.generate_output_filename path true true none = basePart path ++ "_b_c.png" := by
  refine ⟨?_, ?_, ?_, ?_⟩
  · cases rb <;> cases c <;> cases bg <;> rcases rz with _ | ⟨w, h⟩ <;>
      simp [ImageProcessor.generate_output_filename, String.append_assoc] <;>
      try (rw [append_pull_underscore]; simp [String.append_assoc])
  · cases rb <;> cases c <;> rcases rz with _ | ⟨w, h⟩ <;>
      simp [Imager.generate_output_filename, String.append_assoc]
  · simp [ImageProcessor.generate_output_filename, String.append_assoc]
  · simp [Imager.generate_output_filename, String.append_assoc]

/-- C6 counterexample: with resize requested but no crop, `imager.py`'s
deriver emits no size token at all (claim demands `photo_200x200.png`), and
with crop it emits the token without the leading underscore. -/
theorem imager_filename_resize_token_counterexample :
    Imager.generate_output_filename "photo.jpg" false false (some (200, 200)) = "photo.png"
  ∧ ("photo.png" : String) ≠ "photo_200x200.png"
  ∧ Imager.generate_output_filename "photo.jpg" false true (some (200, 200))
      = "photo_c200x200.png"
  ∧ ("photo_c200x200.png" : String) ≠ "photo_c_200x200.png" := by
  refine ⟨by decide, by decide, by decide, by decide⟩

/-! ## C7 — pass-through extension -/

/-- C7 (amended): with zero processing flags the derived name does NOT keep
the original extension — both derivers always force `.png`. -/
theorem passthrough_forces_png (path : String) :
    ImageProcessor.generate_output_filename path false false none false
      = basePart path ++ ".png"
  ∧ Imager.generate_output_filename path false false none = basePart path ++ ".png" := by
  constructor <;>
    simp [ImageProcessor.generate_output_filename, Imager.generate_output_filename]

/-- C7 counterexample: a pure pass-through of `photo.jpg` is named
`photo.png`, not `photo.jpg`. -/
theorem passthrough_extension_counterexample :
    ImageProcessor.generate_output_filename "photo.jpg" false false none false = "photo.png"
  ∧ Imager.generate_output_filename "photo.jpg" false false none = "photo.png"
  ∧ ("photo.png" : String) ≠ "photo.jpg" := by
  refine ⟨by decide, by decide, by decide⟩

/-! ## C8 — invalid background spec -/

/-- C8 (amended): an unresolvable color spec never raises and always yields
the default white (`#FFFFFF`) background layer; the warning is printed only
when the spec starts with `#` or is purely alphabetic — any other invalid
string (such as `"notacolor123"`) falls back silently. -/
theorem add_background_invalid_spec (validColor : String → Bool) (s : String)
    (h : ¬((pyStartsWithHash s || pyIsAlpha s) = true ∧ validColor s = true)) :
    ImageProcessor.add_background validColor (Background.colorSpec s)
      = Except.ok ⟨"#FFFFFF", pyStartsWithHash s || pyIsAlpha s⟩ := by
  unfold ImageProcessor.add_background
  cases hb : (pyStartsWithHash s || pyIsAlpha s) with
  | false => simp [hb]
  | true =>
    have hv : validColor s = false := by
      cases hvc : validColor s
      · rfl
      · exact absurd ⟨hb, hvc⟩ h
    simp [hb, hv]

/-- C8 witness: the invalid alphabetic spec `"zzz"` takes the warned
fallback path. -/
theorem add_background_invalid_spec_witness :
    ImageProcessor.add_background (fun _ => false) (Background.colorSpec "zzz")
      = Except.ok ⟨"#FFFFFF", true⟩
  ∧ (pyStartsWithHash "zzz" || pyIsAlpha "zzz") = true := by
  constructor
  · have h1 := add_background_invalid_spec (fun _ => false) "zzz" (by simp)
    rw [h1]
    decide
  · decide

/-- C8 counterexample: `"notacolor123"` (neither `#`-prefixed nor purely
alphabetic) resolves to white with NO warning, contradicting the claim that
a warning is recorded. -/
theorem add_background_silent_fallback_counterexample :
    ImageProcessor.add_background (fun _ => false) (Background.colorSpec "notacolor123")
      = Except.ok ⟨"#FFFFFF", false⟩
  ∧ (pyStartsWithHash "notacolor123" || pyIsAlpha "notacolor123") = false := by
  refine ⟨by decide, by decide⟩

/-! ## C2 — batch error propagation -/

/-- C2 (amended): neither `process_images` loop catches per-file failures;
an exception raised while processing a file propagates out of the loop, so
no later file is processed and no file is recorded as completed for this
run (the processed list is empty whenever the first file fails). -/
theorem process_images_aborts_on_failure (step : String → FS → FS × Option PyErr)
    (fs : FS) (x : String) (rest : List String) (e : PyErr) (fs1 : FS)
    (h : step x fs = (fs1, some e)) :
    (process_images_loop step fs (x :: rest)).2 = ([], some e) := by
  simp [process_images_loop, h]

/-- C2 witness: a concrete crop batch whose first file fails aborts with the
propagated `pilError` and an empty processed list. -/
theorem process_images_aborts_on_failure_witness :
    (process_images_loop stepCropBatch fsTwo ["a.png", "b.png"]).2
      = ([], some PyErr.pilError) :=
  process_images_aborts_on_failure stepCropBatch fsTwo "a.png" ["b.png"] PyErr.pilError
    fsAfterFail rfl

/-- C2 counterexample: in a two-file batch whose first file fails, the
exception escapes the loop, the second file's output is never written and
the second input is never archived — the batch does NOT continue. -/
theorem batch_failure_skips_remaining_counterexample :
    (process_images_loop stepCropBatch fsTwo ["a.png", "b.png"]).2.1 = []
  ∧ (process_images_loop stepCropBatch fsTwo ["a.png", "b.png"]).2.2 = some PyErr.pilError
  ∧ (process_images_loop stepCropBatch fsTwo ["a.png", "b.png"]).1 "./output/b_c.png" = none
  ∧ (process_images_loop stepCropBatch fsTwo ["a.png", "b.png"]).1 "./input/b.png"
      = some ImageData.orig := by
  refine ⟨by decide, by decide, by decide, by decide⟩

/-! ## C4 — non-positive content geometry -/

/-- C4 (amended): when the content height `resizeTo.h - 2*padding` is zero,
`resize_and_pad_image` raises an unhandled `ZeroDivisionError` from the
`target_ratio` division — there is no `InvalidPaddingGeometry` error in the
code — and, since the per-file loop has no handler, the exception aborts the
batch instead of letting it continue. -/
theorem zero_content_height_zero_division (sw sh : ℕ) (tw p : ℤ) (hsh : sh ≠ 0) :
    ImageProcessor.resize_and_pad_image sw sh (tw, 2 * p) p = Except.error PyErr.zeroDiv
  ∧ ∀ (fs : FS) (x : String) (rest : List String),
      (process_images_loop (ImageProcessor.resize_step sw sh (tw, 2 * p) p) fs (x :: rest)).2
        = ([], some PyErr.zeroDiv) := by
  have h1 : ImageProcessor.resize_and_pad_image sw sh (tw, 2 * p) p
      = Except.error PyErr.zeroDiv := by
    simp [ImageProcessor.resize_and_pad_image, ImageProcessor.fit_new_size, hsh, sub_self]
  refine ⟨h1, ?_⟩
  intro fs x rest
  simp [process_images_loop, ImageProcessor.resize_step, h1]

/-- C4 witness: target `(20, 20)` with padding `10` gives content height `0`,
the stage raises `ZeroDivisionError`, and a batch headed by such a file
aborts. -/
theorem zero_content_height_zero_division_witness :
    ImageProcessor.resize_and_pad_image 100 100 (20, 2 * 10) 10 = Except.error PyErr.zeroDiv
  ∧ (process_images_loop (ImageProcessor.resize_step 100 100 (20, 2 * 10) 10)
      emptyFS ["a.png"]).2 = ([], some PyErr.zeroDiv) :=
  ⟨(zero_content_height_zero_division 100 100 20 10 (by decide)).1,
   (zero_content_height_zero_division 100 100 20 10 (by decide)).2 emptyFS "a.png" []⟩

/-- C4 counterexample: at target `(20, 20)` with padding `10` the code raises
`ZeroDivisionError`, which is not `InvalidPaddingGeometry`, and the batch
aborts rather than continuing past the failing image. -/
theorem invalid_padding_no_geometry_error_counterexample :
    ImageProcessor.resize_and_pad_image 100 100 (20, 20) 10 = Except.error PyErr.zeroDiv
  ∧ PyErr.zeroDiv ≠ PyErr.invalidPaddingGeometry
  ∧ (process_images_loop (ImageProcessor.resize_step 100 100 (20, 20) 10)
      emptyFS ["a.png", "b.png"]).2 = ([], some PyErr.zeroDiv) := by
  refine ⟨by decide, by decide, by decide⟩

/-! ## C3 — resize-and-pad output size -/

/-- C3: `image_processor.py`'s `resize_and_pad_image` produces exactly the
requested target size for every positive source and valid (target, padding)
pair whose fitted dimensions come out at least one pixel (the hypotheses
`sh ≤ (th - 2p) * sw` and `sw ≤ (tw - 2p) * sh` say exactly that; an aspect
ratio extreme enough to truncate a fitted dimension to zero instead makes
PIL's `resize` raise).  `imager.py`'s pipeline, however, passes
`resize - 2*padding` as the dimensions — and `resize_and_pad_image`
subtracts the padding again — so the file written for request
`resize=(200,200), padding=10` is a 180×180 canvas, not 200×200. -/
theorem imager_resize_padding_size_bug (sw sh : ℕ) (tw th p : ℤ)
    (hsw : 0 < sw) (hsh : 0 < sh) (htw : 2 * p < tw) (hth : 2 * p < th) (hp : 0 ≤ p)
    (hfw : (sh : ℤ) ≤ (th - 2 * p) * (sw : ℤ))
    (hfh : (sw : ℤ) ≤ (tw - 2 * p) * (sh : ℤ)) :
    ImageProcessor.resize_and_pad_image sw sh (tw, th) p = Except.ok (tw, th)
  ∧ (Imager.process_image oracleAllOk fsOne "in.png" "out.png" false false
        (some (200, 200)) 10).1 "out.png"
      = some (ImageData.resizedPadded ImageData.orig 180 180 10)
  ∧ (Imager.process_image oracleAllOk fsOne "in.png" "out.png" false false
        (some (200, 200)) 10).2 = none
  ∧ ((180, 180) : Int × Int) ≠ (200, 200) := by
  have hsh0 : sh ≠ 0 := by omega
  have hsw0 : sw ≠ 0 := by omega
  have hch0 : th - 2 * p ≠ 0 := by omega
  have htw0 : ¬(tw < 0 ∨ th < 0) := by omega
  have hshQ : (0 : ℚ) < ((sh : ℤ) : ℚ) := by exact_mod_cast hsh
  have hswQ : (0 : ℚ) < ((sw : ℤ) : ℚ) := by exact_mod_cast hsw
  refine ⟨?_, by decide, by decide, by decide⟩
  unfold ImageProcessor.resize_and_pad_image ImageProcessor.fit_new_size
  simp only [hsh0, if_false, hch0, if_false]
  by_cases hcmp :
      Rat.divInt (tw - 2 * p) (th - 2 * p) > Rat.divInt ((sw : ℤ)) ((sh : ℤ))
  · rw [if_pos hcmp]
    have hnw : 1 ≤ pyInt (Rat.divInt ((th - 2 * p) * (sw : ℤ)) ((sh : ℤ))) := by
      apply one_le_pyInt
      rw [Rat.divInt_eq_div, one_le_div hshQ]
      exact_mod_cast hfw
    have h1 : ¬(pyInt (Rat.divInt ((th - 2 * p) * (sw : ℤ)) ((sh : ℤ))) ≤ 0
        ∨ th - 2 * p ≤ 0) := by
      push_neg
      exact ⟨by omega, by omega⟩
    simp only [h1, htw0, if_false]
  · rw [if_neg hcmp, if_neg hsw0]
    have hnh : 1 ≤ pyInt (Rat.divInt ((tw - 2 * p) * (sh : ℤ)) ((sw : ℤ))) := by
      apply one_le_pyInt
      rw [Rat.divInt_eq_div, one_le_div hswQ]
      exact_mod_cast hfh
    have h1 : ¬(tw - 2 * p ≤ 0
        ∨ pyInt (Rat.divInt ((tw - 2 * p) * (sh : ℤ)) ((sw : ℤ))) ≤ 0) := by
      push_neg
      exact ⟨by omega, by omega⟩
    simp only [h1, htw0, if_false]

/-- C3 witness: source 300×200, target (200, 200), padding 10 — both fitted
dimensions are at least one pixel, `image_processor.py` produces exactly
200×200, and `imager.py` writes a 180×180 file. -/
theorem imager_resize_padding_size_bug_witness :
    ImageProcessor.resize_and_pad_image 300 200 (200, 200) 10 = Except.ok (200, 200)
  ∧ ((180, 180) : Int × Int) ≠ (200, 200) :=
  ⟨(imager_resize_padding_size_bug 300 200 200 200 10 (by decide) (by decide)
      (by decide) (by decide) (by decide) (by decide) (by decide)).1,
   (imager_resize_padding_size_bug 300 200 200 200 10 (by decide) (by decide)
      (by decide) (by decide) (by decide) (by decide) (by decide)).2.2.2⟩

/-! ## C5 — aspect-preserving fit branch selection -/

/-- C5: for positive source and content sizes, the fit computation takes the
height-bound formula when `targetRatio > sourceRatio` and the width-bound
formula otherwise; at a tie the `else` branch runs, but with exact ratio
arithmetic its result coincides with the height-bound formula, so ties
resolve to the height-bound result; the derived dimension is rounded by
truncation (`pyInt`). -/
theorem fit_branch_selection (sw sh : ℕ) (cw ch : ℤ)
    (hsw : 0 < sw) (hsh : 0 < sh) (_hcw : 0 < cw) (hch : 0 < ch) :
    ((cw : ℚ) / (ch : ℚ) > (sw : ℚ) / (sh : ℚ) →
      ImageProcessor.fit_new_size sw sh cw ch = Except.ok (heightBoundFit sw sh ch))
  ∧ ((cw : ℚ) / (ch : ℚ) < (sw : ℚ) / (sh : ℚ) →
      ImageProcessor.fit_new_size sw sh cw ch = Except.ok (widthBoundFit sw sh cw))
  ∧ ((cw : ℚ) / (ch : ℚ) = (sw : ℚ) / (sh : ℚ) →
      ImageProcessor.fit_new_size sw sh cw ch = Except.ok (heightBoundFit sw sh ch)
      ∧ heightBoundFit sw sh ch = widthBoundFit sw sh cw) := by
  have hshQ : ((sh : ℚ)) ≠ 0 := by positivity
  have hswQ : ((sw : ℚ)) ≠ 0 := by positivity
  have hchQ : ((ch : ℚ)) ≠ 0 := by positivity
  have hsh0 : sh ≠ 0 := Nat.pos_iff_ne_zero.mp hsh
  have hsw0 : sw ≠ 0 := Nat.pos_iff_ne_zero.mp hsw
  have hch0 : ch ≠ 0 := ne_of_gt hch
  have hdivT : (Rat.divInt cw ch) = (cw : ℚ) / (ch : ℚ) := Rat.divInt_eq_div cw ch
  have hdivI : (Rat.divInt (sw : ℤ) (sh : ℤ)) = (sw : ℚ) / (sh : ℚ) := by
    rw [Rat.divInt_eq_div]
    push_cast
    rfl
  have hH : Rat.divInt (ch * (sw : ℤ)) (sh : ℤ) = (ch : ℚ) * ((sw : ℚ) / (sh : ℚ)) := by
    rw [Rat.divInt_eq_div]
    push_cast
    rw [mul_div_assoc]
  have hW : Rat.divInt (cw * (sh : ℤ)) (sw : ℤ) = (cw : ℚ) / ((sw : ℚ) / (sh : ℚ)) := by
    rw [Rat.divInt_eq_div]
    push_cast
    rw [div_div_eq_mul_div]
  refine ⟨?_, ?_, ?_⟩
  · intro hgt
    simp only [ImageProcessor.fit_new_size, hsh0, if_false, hch0, if_false, hdivT, hdivI]
    rw [if_pos hgt]
    simp [heightBoundFit, hH]
  · intro hlt
    have hngt : ¬((cw : ℚ) / (ch : ℚ) > (sw : ℚ) / (sh : ℚ)) := not_lt.mpr (le_of_lt hlt)
    simp only [ImageProcessor.fit_new_size, hsh0, if_false, hch0, if_false, hdivT, hdivI]
    rw [if_neg hngt, if_neg hsw0]
    simp [widthBoundFit, hW]
  · intro heq
    have hngt : ¬((cw : ℚ) / (ch : ℚ) > (sw : ℚ) / (sh : ℚ)) := by
      rw [heq]
      exact lt_irrefl _
    have hcross : (cw : ℚ) * (sh : ℚ) = (sw : ℚ) * (ch : ℚ) :=
      (div_eq_div_iff hchQ hshQ).mp heq
    have hWval : (cw : ℚ) / ((sw : ℚ) / (sh : ℚ)) = ((ch : ℤ) : ℚ) := by
      rw [div_div_eq_mul_div, div_eq_iff hswQ]
      linarith [hcross]
    have hHval : (ch : ℚ) * ((sw : ℚ) / (sh : ℚ)) = ((cw : ℤ) : ℚ) := by
      rw [mul_div_assoc'] at *
      rw [div_eq_iff hshQ]
      linarith [hcross]
    have hHB : heightBoundFit sw sh ch = (cw, ch) := by
      simp [heightBoundFit, hHval, pyInt_intCast]
    have hWB : widthBoundFit sw sh cw = (cw, ch) := by
      simp [widthBoundFit, hWval, pyInt_intCast]
    refine ⟨?_, hHB.trans hWB.symm⟩
    simp only [ImageProcessor.fit_new_size, hsh0, if_false, hch0, if_false, hdivT, hdivI]
    rw [if_neg hngt, if_neg hsw0]
    rw [hHB]
    simp [hW, hWval, pyInt_intCast]

/-- C5 witness: source 3×4, content 3×2: `targetRatio = 3/2 > 3/4 =
sourceRatio`, so the height-bound formula runs, and truncation gives
`new_width = int(2 * 3/4) = 1`. -/
theorem fit_branch_selection_witness :
    ImageProcessor.fit_new_size 3 4 3 2 = Except.ok (heightBoundFit 3 4 2)
  ∧ ImageProcessor.fit_new_size 3 4 3 2 = Except.ok (1, 2)
  ∧ ((3 : ℚ) / (2 : ℚ) > (3 : ℚ) / (4 : ℚ)) := by
  have h := (fit_branch_selection 3 4 3 2 (by decide) (by decide) (by decide)
    (by decide)).1 (by norm_num)
  refine ⟨h, by decide, by norm_num⟩

/-! ## C10 — crop + padding NameError -/

/-- C10: every invocation of `imager.py`'s `process_image` with `crop` set,
`padding > 0` and no resize raises (so no output file is produced: the
destination is left exactly as it was), and whenever the stages before the
finalization succeed the raised exception is precisely the `NameError` from
the undefined `crop_width`/`crop_height`. -/
theorem crop_padding_name_error (o : StageOracle) (fs : FS) (inp out : String)
    (rb : Bool) (p : Int) (hp : 0 < p) :
    ((Imager.process_image o fs inp out true rb none p).2).isSome = true
  ∧ (Imager.process_image o fs inp out true rb none p).1 out = fs out
  ∧ (∀ d, fs inp = some d → (rb = true → o.removeOk = true) → o.cropOk = true →
      (Imager.process_image o fs inp out true rb none p).2 = some PyErr.nameError) := by
  rcases hin : fs inp with _ | d
  · simp [Imager.process_image, hin]
  · cases rb <;> cases hro : o.removeOk <;> cases hco : o.cropOk <;>
      simp_all [Imager.process_image, FS.write, FS.erase, hp, ne_append_tmp]

/-- C10 witness: crop with padding 3 and all external stages succeeding
raises `NameError` and leaves the destination untouched. -/
theorem crop_padding_name_error_witness :
    (Imager.process_image oracleAllOk fsOne "in.png" "out.png" true false none 3).2
      = some PyErr.nameError
  ∧ (Imager.process_image oracleAllOk fsOne "in.png" "out.png" true false none 3).1 "out.png"
      = fsOne "out.png" :=
  ⟨(crop_padding_name_error oracleAllOk fsOne "in.png" "out.png" false 3 (by decide)).2.2
      ImageData.orig (by decide) (by simp) (by decide),
   (crop_padding_name_error oracleAllOk fsOne "in.png" "out.png" false 3 (by decide)).2.1⟩

/-! ## C1 — failure leaves destination untouched, temp file retained -/

/-- C1 (amended): when any stage of `imager.py`'s `process_image` fails, the
destination path is left untouched (file writes being atomic), but the
temporary file is NOT discarded: whenever the input was readable, background
removal did not fail, and a temp file was created (processing requested or
nonzero padding), a failing invocation leaves a file at
`output_path + ".tmp.png"`. -/
theorem process_image_failure_behavior (o : StageOracle) (fs : FS) (inp out : String)
    (c rb : Bool) (rz : Option (Int × Int)) (p : Int) :
    (((Imager.process_image o fs inp out c rb rz p).2).isSome = true →
      (Imager.process_image o fs inp out c rb rz p).1 out = fs out)
  ∧ (∀ d, fs inp = some d → (rb = true → o.removeOk = true) →
      ((c || rz.isSome || rb) = true ∨ p ≠ 0) →
      ((Imager.process_image o fs inp out c rb rz p).2).isSome = true →
      (((Imager.process_image o fs inp out c rb rz p).1 (out ++ ".tmp.png")).isSome = true)) := by
  rcases hin : fs inp with _ | d
  · simp [Imager.process_image, hin]
  · rcases rz with _ | ⟨rw, rh⟩ <;> cases c <;> cases rb <;>
      cases hro : o.removeOk <;> cases hco : o.cropOk <;> cases hre : o.resizeOk <;>
      by_cases hp : p = 0 <;> by_cases hpp : 0 < p <;>
      simp_all [Imager.process_image, FS.write, FS.erase, ne_append_tmp] <;>
      rw [if_neg (not_lt.mpr hpp)] <;>
      simp [FS.write, FS.erase, ne_append_tmp, append_tmp_ne]

/-- C1 witness: a failing autocrop stage (crop requested, decode fails)
leaves the destination untouched and the temp file present. -/
theorem process_image_failure_behavior_witness :
    (Imager.process_image oracleCropFails fsOne "in.png" "out.png" true false none 0).1 "out.png"
      = fsOne "out.png"
  ∧ ((Imager.process_image oracleCropFails fsOne "in.png" "out.png" true false none 0).1
      ("out.png" ++ ".tmp.png")).isSome = true :=
  ⟨(process_image_failure_behavior oracleCropFails fsOne "in.png" "out.png" true false
      none 0).1 (by decide),
   (process_image_failure_behavior oracleCropFails fsOne "in.png" "out.png" true false
      none 0).2 ImageData.orig (by decide) (by simp) (Or.inl (by decide)) (by decide)⟩

/-- C1 counterexample: with crop requested and the autocrop stage failing
after the temp file was written, the invocation raises and the temp file
survives at `out.png.tmp.png` — it is not discarded as the claim states. -/
theorem process_image_temp_not_discarded_counterexample :
    (Imager.process_image oracleCropFails fsOne "in.png" "out.png" true false none 0).2
      = some PyErr.pilError
  ∧ (Imager.process_image oracleCropFails fsOne "in.png" "out.png" true false none 0).1
      "out.png.tmp.png" = some ImageData.orig := by
  refine ⟨by decide, by decide⟩

/-! ## C9 — temp-file lifetime -/

/-- C9 (amended): on the success paths that involve a processing stage
(crop, background removal or resize) the temp file is removed or renamed
before the invocation ends; but an invocation with `padding ≠ 0` and no
processing flags creates the temp file and leaves it behind even on
success. -/
theorem temp_file_lifecycle (o : StageOracle) (fs : FS) (inp out : String)
    (c rb : Bool) (rz : Option (Int × Int)) (p : Int) (d : ImageData)
    (hin : fs inp = some d) :
    ((Imager.process_image o fs inp out c rb rz p).2 = none →
      (c || rz.isSome || rb) = true →
      (Imager.process_image o fs inp out c rb rz p).1 (out ++ ".tmp.png") = none)
  ∧ ((Imager.process_image o fs inp out c rb rz p).2 = none →
      (c || rz.isSome || rb) = false → p ≠ 0 →
      (Imager.process_image o fs inp out c rb rz p).1 (out ++ ".tmp.png") = some d) := by
  rcases rz with _ | ⟨rw, rh⟩ <;> cases c <;> cases rb <;>
    cases hro : o.removeOk <;> cases hco : o.cropOk <;> cases hre : o.resizeOk <;>
    by_cases hp : p = 0 <;> by_cases hpp : 0 < p <;>
    simp_all [Imager.process_image, FS.write, FS.erase, ne_append_tmp, append_tmp_ne] <;>
    rw [if_neg (not_lt.mpr hpp)] <;>
    simp [FS.write, FS.erase, ne_append_tmp, append_tmp_ne]

/-- C9 witness: padding 5 with no processing flags succeeds yet leaves the
original bytes at the temp path. -/
theorem temp_file_lifecycle_witness :
    (Imager.process_image oracleAllOk fsOne "in.png" "out.png" false false none 5).2 = none
  ∧ (Imager.process_image oracleAllOk fsOne "in.png" "out.png" false false none 5).1
      ("out.png" ++ ".tmp.png") = some ImageData.orig :=
  ⟨by decide,
   (temp_file_lifecycle oracleAllOk fsOne "in.png" "out.png" false false none 5
      ImageData.orig (by decide)).2 (by decide) (by decide) (by decide)⟩

/-- C9 counterexample: the successful padding-only invocation terminates
with the temp file still on disk (and the output written), so a temporary
file outlives the processing of its image. -/
theorem padding_only_temp_leak_counterexample :
    (Imager.process_image oracleAllOk fsOne "in.png" "out.png" false false none 5).2 = none
  ∧ (Imager.process_image oracleAllOk fsOne "in.png" "out.png" false false none 5).1
      "out.png.tmp.png" = some ImageData.orig
  ∧ (Imager.process_image oracleAllOk fsOne "in.png" "out.png" false false none 5).1
      "out.png" = some ImageData.orig := by
  refine ⟨by decide, by decide, by decide⟩
